import Mathlib

/-!
Verification of the intent-classification pipeline of
`classificador-mensagens-api` against its specification.

Embedding conventions:
* Python `str` is modelled as `List Nat` (Unicode code points); character
  classes (`isalnum`, `\w`, `\s`, `lower`) are modelled on the ASCII
  fragment, which is where every constant of the program lives.
* Python `float` is modelled as `ℚ`; all confidence constants
  (0.95, 0.85, 0.7, 0.5, 0.3, 0.8) and comparisons between them are exact
  in both models, so ordering behaviour coincides.
* `async` functions are pure in the relevant fragment; the LLM call and
  the example file are oracles/parameters. Wall-clock latency is an
  explicit parameter.
-/

namespace Classificador

/-- Code points of a Lean string literal; used to write `str` constants. -/
def ofStr (s : String) : List Nat := s.toList.map Char.toNat

/-- ASCII fragment of Python `str.isspace` / regex `\s`. -/
def isSpaceCode (n : Nat) : Bool :=
  n == 32 || n == 9 || n == 10 || n == 13 || n == 12 || n == 11

/-- ASCII decimal digit. -/
def isDigitCode (n : Nat) : Bool := decide (48 ≤ n) && decide (n ≤ 57)

/-- ASCII uppercase letter. -/
def isUpperCode (n : Nat) : Bool := decide (65 ≤ n) && decide (n ≤ 90)

/-- ASCII lowercase letter. -/
def isLowerCode (n : Nat) : Bool := decide (97 ≤ n) && decide (n ≤ 122)

/-- ASCII fragment of Python `str.isalpha`. -/
def isAlphaCode (n : Nat) : Bool := isUpperCode n || isLowerCode n

/-- ASCII fragment of Python `str.isalnum`. -/
def isAlnumCode (n : Nat) : Bool := isAlphaCode n || isDigitCode n

/-- ASCII fragment of regex `\w`: alphanumeric or underscore (code 95). -/
def isWordCode (n : Nat) : Bool := isAlnumCode n || n == 95

/-- ASCII fragment of Python `str.lower` on one character. -/
def lowerCode (n : Nat) : Nat := if isUpperCode n then n + 32 else n

/-- Python `str.strip()`: drop whitespace from both ends. -/
def strStrip (l : List Nat) : List Nat :=
  ((l.dropWhile isSpaceCode).reverse.dropWhile isSpaceCode).reverse

/-- Python `str.lower()`. -/
def strLower (l : List Nat) : List Nat := l.map lowerCode

/-- `re.sub(r'[^\w\s]', '', s)`: keep word characters and whitespace only. -/
def stripPunct (l : List Nat) : List Nat :=
  l.filter (fun n => isWordCode n || isSpaceCode n)

/-- `needle` occurs at the start of the first list (helper for `in`). -/
def startsWith : List Nat → List Nat → Bool
  | _, [] => true
  | [], _ :: _ => false
  | a :: as, b :: bs => a == b && startsWith as bs

/-- Python `needle in hay` substring test. -/
def strContainsSub (hay needle : List Nat) : Bool :=
  match hay with
  | [] => needle.isEmpty
  | _ :: t => startsWith hay needle || strContainsSub t needle

/-- `IntentType` enumeration of `src/domain/models.py`. -/
inductive IntentType
  | greeting
  | farewell
  | question
  | complaint
  | compliment
  | request
  | information
  | help
  | cancellation
  | confirmation
  | unknown
deriving DecidableEq, Repr

/-- The string value of each enum member. -/
def IntentType.value : IntentType → List Nat
  | .greeting => ofStr "greeting"
  | .farewell => ofStr "farewell"
  | .question => ofStr "question"
  | .complaint => ofStr "complaint"
  | .compliment => ofStr "compliment"
  | .request => ofStr "request"
  | .information => ofStr "information"
  | .help => ofStr "help"
  | .cancellation => ofStr "cancellation"
  | .confirmation => ofStr "confirmation"
  | .unknown => ofStr "unknown"

/-- Enum members in definition order. -/
def allIntents : List IntentType :=
  [.greeting, .farewell, .question, .complaint, .compliment, .request,
   .information, .help, .cancellation, .confirmation, .unknown]

/-- `IntentType.from_string`: `cls(value.lower())`, `ValueError → UNKNOWN`.
Membership lookup by value in definition order; `unknown` both matches its
own value and is the fallback, so the final branch covers both. -/
def IntentType.fromString (v : List Nat) : IntentType :=
  if strLower v = IntentType.value .greeting then .greeting
  else if strLower v = IntentType.value .farewell then .farewell
  else if strLower v = IntentType.value .question then .question
  else if strLower v = IntentType.value .complaint then .complaint
  else if strLower v = IntentType.value .compliment then .compliment
  else if strLower v = IntentType.value .request then .request
  else if strLower v = IntentType.value .information then .information
  else if strLower v = IntentType.value .help then .help
  else if strLower v = IntentType.value .cancellation then .cancellation
  else if strLower v = IntentType.value .confirmation then .confirmation
  else .unknown

/-- `ConfidenceLevel` enumeration of `src/domain/models.py`. -/
inductive ConfidenceLevel
  | high
  | medium
  | low
deriving DecidableEq, Repr

/-- `ClassificationResult.calculate_confidence_level` (pydantic
`mode="before"` validator): a value that already is a `ConfidenceLevel` is
returned as-is (`provided = some lv`); anything else (the service passes
the placeholder `""`) derives the level from the numeric score. -/
def calculate_confidence_level (provided : Option ConfidenceLevel)
    (confidence : ℚ) : ConfidenceLevel :=
  match provided with
  | some lv => lv
  | none =>
    if mkRat 8 10 ≤ confidence then .high
    else if mkRat 5 10 ≤ confidence then .medium
    else .low

/-- Cleaning steps 1-2 of `IntentService._parse_llm_response`:
`raw.strip().lower()`, then `re.sub(r'[^\w\s]', '', ·)`, then `.strip()`. -/
def cleanResponse (raw : List Nat) : List Nat :=
  strStrip (stripPunct (strLower (strStrip raw)))

/-- `IntentService._calculate_confidence`. -/
def calculate_confidence (cleaned : List Nat) (intent : IntentType) : ℚ :=
  if cleaned = intent.value then mkRat 95 100
  else if intent = .unknown then mkRat 3 10
  else if strContainsSub cleaned intent.value then mkRat 85 100
  else mkRat 7 10

/-- `IntentService._parse_llm_response` (the parse pipeline). -/
def parse_llm_response (raw : List Nat) : IntentType × ℚ :=
  let cleaned := cleanResponse raw
  let intent := IntentType.fromString cleaned
  (intent, calculate_confidence cleaned intent)

/-- The three rejection cases of `IntentService._validate_input`. -/
inductive ValidationFailKind
  | emptyInput
  | tooLong
  | noAlphanumeric
deriving DecidableEq, Repr

/-- `IntentService._validate_input`: `some` = raises `ValidationException`. -/
def validate_input (ui : List Nat) : Option ValidationFailKind :=
  if ui.isEmpty || (strStrip ui).isEmpty then some .emptyInput
  else if 1000 < ui.length then some .tooLong
  else if !(ui.any isAlnumCode) then some .noAlphanumeric
  else none

/-! ### Spec-side parser definitions (refinement comparisons for C1/C9) -/

/-- Modelled from the spec wording of C1 as stated: trim and lowercase,
strip all non-alphanumeric non-whitespace characters, trim. -/
def cleanedSpecClaimed (raw : List Nat) : List Nat :=
  strStrip ((strLower (strStrip raw)).filter
    (fun n => isAlnumCode n || isSpaceCode n))

/-- Modelled from the amended wording: strip all characters that are
neither word characters (alphanumeric or underscore) nor whitespace. -/
def cleanedSpecAmended (raw : List Nat) : List Nat :=
  strStrip ((strLower (strStrip raw)).filter
    (fun n => isAlnumCode n || n == 95 || isSpaceCode n))

/-- Spec wording: map the cleaned string to a category by exact
case-insensitive value match; anything unmatched maps to `unknown`. -/
def mapCategorySpec (v : List Nat) : IntentType :=
  (allIntents.find? (fun i => decide (strLower v = i.value))).getD .unknown

/-- Spec wording: the four-rule confidence priority order, first matching
rule wins: exact equality 0.95, unknown 0.30, substring 0.85, else 0.70. -/
def confidenceSpec (cleaned : List Nat) (cat : IntentType) : ℚ :=
  if cleaned = cat.value then mkRat 95 100
  else if cat = .unknown then mkRat 3 10
  else if strContainsSub cleaned cat.value then mkRat 85 100
  else mkRat 7 10

/-- The parse pipeline exactly as the claim C1 words it. -/
def parseSpecClaimed (raw : List Nat) : IntentType × ℚ :=
  let cleaned := cleanedSpecClaimed raw
  let cat := mapCategorySpec cleaned
  (cat, confidenceSpec cleaned cat)

/-- The parse pipeline as amended (word characters kept, not stripped). -/
def parseSpecAmended (raw : List Nat) : IntentType × ℚ :=
  let cleaned := cleanedSpecAmended raw
  let cat := mapCategorySpec cleaned
  (cat, confidenceSpec cleaned cat)

/-! ### Helper lemmas about the character model -/

theorem clean_eq_specAmended (raw : List Nat) :
    cleanResponse raw = cleanedSpecAmended raw := by
  unfold cleanResponse cleanedSpecAmended stripPunct
  rw [List.filter_congr]
  intro n _
  simp [isWordCode, Bool.or_assoc]

theorem fromString_eq_spec (v : List Nat) :
    IntentType.fromString v = mapCategorySpec v := by
  unfold IntentType.fromString mapCategorySpec allIntents
  simp only [List.find?]
  repeat' split
  all_goals simp_all

theorem isUpperCode_lowerCode (n : Nat) :
    isUpperCode (lowerCode n) = false := by
  unfold lowerCode isUpperCode at *
  split <;> rename_i h <;>
    simp only [Bool.and_eq_true, decide_eq_true_eq, Bool.and_eq_false_iff,
      decide_eq_false_iff_not] at * <;> omega

theorem strStrip_subset (l : List Nat) : strStrip l ⊆ l := by
  unfold strStrip
  intro n hn
  rw [List.mem_reverse] at hn
  have h1 := List.dropWhile_subset isSpaceCode hn
  rw [List.mem_reverse] at h1
  exact List.dropWhile_subset isSpaceCode h1

theorem no_upper_clean (raw : List Nat) :
    ∀ n ∈ cleanResponse raw, isUpperCode n = false := by
  intro n hn
  unfold cleanResponse stripPunct at hn
  have h1 := strStrip_subset _ hn
  have h2 := List.mem_of_mem_filter h1
  unfold strLower at h2
  rcases List.mem_map.mp h2 with ⟨m, _, rfl⟩
  exact isUpperCode_lowerCode m

theorem strLower_of_no_upper (l : List Nat)
    (h : ∀ n ∈ l, isUpperCode n = false) : strLower l = l := by
  unfold strLower
  induction l with
  | nil => rfl
  | cons a t ih =>
    simp only [List.map_cons]
    rw [ih (fun n hn => h n (List.mem_cons_of_mem _ hn))]
    have ha := h a (List.mem_cons_self a t)
    unfold lowerCode
    rw [ha]
    simp

theorem fromString_cases (v : List Nat) :
    IntentType.fromString v = .unknown
    ∨ strLower v = (IntentType.fromString v).value := by
  unfold IntentType.fromString
  repeat' split
  all_goals first | (left; rfl) | (right; assumption)

/-! ### Claim C1: the parse pipeline -/

set_option maxRecDepth 4000

/-- **C1, counterexample.** The claim says cleaning strips every
non-alphanumeric non-whitespace character. The code strips `[^\w\s]`,
which keeps underscores. On raw text `"greeting_"` the code yields
`(unknown, 0.30)` while the claim's pipeline yields `(greeting, 0.95)`. -/
theorem parse_pipeline_counterexample :
    parse_llm_response (ofStr "greeting_") = (.unknown, mkRat 3 10)
    ∧ parseSpecClaimed (ofStr "greeting_") = (.greeting, mkRat 95 100) := by
  constructor <;> decide

/-- **C1, amended.** For every raw completion text, parse trims and
lowercases it, strips every character that is neither a word character
(alphanumeric or underscore) nor whitespace, maps the cleaned string to an
IntentCategory by exact case-insensitive value match (anything unmatched
maps to unknown), and assigns confidence by the four-rule priority order:
exact equality 0.95, unknown 0.30, substring 0.85, otherwise 0.70. -/
theorem parse_pipeline_amended (raw : List Nat) :
    parse_llm_response raw = parseSpecAmended raw := by
  show (IntentType.fromString (cleanResponse raw),
        calculate_confidence (cleanResponse raw)
          (IntentType.fromString (cleanResponse raw)))
      = (mapCategorySpec (cleanedSpecAmended raw),
        confidenceSpec (cleanedSpecAmended raw)
          (mapCategorySpec (cleanedSpecAmended raw)))
  rw [clean_eq_specAmended, fromString_eq_spec]
  rfl

/-! ### Claim C3: confidence tier derivation -/

/-- **C3, counterexample.** The pydantic validator keeps a tier that is
already supplied as a `ConfidenceLevel`, so the tier can be set
independently of the score: a result carrying score 0.95 can be
constructed with tier `low`, although 0.8 ≤ 0.95 demands `high`. -/
theorem tier_counterexample :
    calculate_confidence_level (some .low) (mkRat 95 100) = .low
    ∧ mkRat 8 10 ≤ mkRat 95 100
    ∧ calculate_confidence_level (some .low) (mkRat 95 100) ≠ .high := by
  refine ⟨rfl, by decide, by decide⟩

/-- **C3, amended.** Whenever the tier is not explicitly supplied as a
`ConfidenceLevel` (the classification pipeline always passes the `""`
placeholder, so every result it builds derives the tier), the tier is a
pure function of the score: high iff score ≥ 0.8, medium iff
0.5 ≤ score < 0.8, low iff score < 0.5 — for every rational score,
including the boundary values 0.0, 0.4999, 0.5, 0.7999, 0.8 and 1.0. -/
theorem tier_thresholds (s : ℚ) :
    (calculate_confidence_level none s = .high ↔ mkRat 8 10 ≤ s)
    ∧ (calculate_confidence_level none s = .medium
        ↔ mkRat 5 10 ≤ s ∧ s < mkRat 8 10)
    ∧ (calculate_confidence_level none s = .low ↔ s < mkRat 5 10) := by
  have h58 : mkRat 5 10 ≤ mkRat 8 10 := by decide
  unfold calculate_confidence_level
  split_ifs with h1 h2
  · exact ⟨⟨fun _ => h1, fun _ => rfl⟩,
      ⟨fun h => absurd h (by decide),
       fun h => absurd h1 (not_le.mpr h.2)⟩,
      ⟨fun h => absurd h (by decide),
       fun h => absurd h1 (not_le.mpr (lt_of_lt_of_le h h58))⟩⟩
  · exact ⟨⟨fun h => absurd h (by decide),
       fun h => absurd h h1⟩,
      ⟨fun _ => ⟨h2, not_le.mp h1⟩, fun _ => rfl⟩,
      ⟨fun h => absurd h (by decide),
       fun h => absurd h2 (not_le.mpr h)⟩⟩
  · exact ⟨⟨fun h => absurd h (by decide),
       fun h => absurd h h1⟩,
      ⟨fun h => absurd h (by decide),
       fun h => absurd h.1 h2⟩,
      ⟨fun _ => not_le.mp h2, fun _ => rfl⟩⟩

/-! ### Claim C9: reachable confidence values -/

/-- **C9, counterexample.** The claim says parse returns exactly 0.30
whenever the mapped category is unknown; but on raw text `"unknown"` the
exact-equality rule fires first and parse returns `(unknown, 0.95)`. -/
theorem parse_unknown_counterexample :
    (parse_llm_response (ofStr "unknown")).1 = .unknown
    ∧ (parse_llm_response (ofStr "unknown")).2 ≠ mkRat 3 10
    ∧ (parse_llm_response (ofStr "unknown")).2 = mkRat 95 100 := by
  refine ⟨by decide, by decide, by decide⟩

/-- **C9, amended.** Through the parse pipeline a non-unknown category is
assigned only when the cleaned string exactly equals that category's
value, so parse returns exactly 0.95 when the mapped category is not
unknown; when it is unknown, parse returns 0.95 if the cleaned string is
exactly `"unknown"` and 0.30 otherwise. The substring rule (0.85) and the
default rule (0.70) can never fire through the parse pipeline. -/
theorem parse_confidence_dichotomy (raw : List Nat) :
    ((parse_llm_response raw).1 ≠ .unknown →
        cleanResponse raw = (parse_llm_response raw).1.value
        ∧ (parse_llm_response raw).2 = mkRat 95 100)
    ∧ ((parse_llm_response raw).1 = .unknown →
        (parse_llm_response raw).2 =
          if cleanResponse raw = IntentType.value .unknown then mkRat 95 100
          else mkRat 3 10)
    ∧ (parse_llm_response raw).2 ≠ mkRat 85 100
    ∧ (parse_llm_response raw).2 ≠ mkRat 7 10 := by
  have hst := strLower_of_no_upper _ (no_upper_clean raw)
  have hfst : (parse_llm_response raw).1
      = IntentType.fromString (cleanResponse raw) := rfl
  have hsnd : (parse_llm_response raw).2
      = calculate_confidence (cleanResponse raw)
          (IntentType.fromString (cleanResponse raw)) := rfl
  rw [hfst, hsnd]
  unfold calculate_confidence
  rcases fromString_cases (cleanResponse raw) with hu | hv
  · rw [hu]
    refine ⟨fun h => absurd rfl h, fun _ => ?_, ?_, ?_⟩
    · split
      · rfl
      · simp
    · split
      · decide
      · show mkRat 3 10 ≠ mkRat 85 100
        decide
    · split
      · decide
      · show mkRat 3 10 ≠ mkRat 7 10
        decide
  · rw [hst] at hv
    rw [if_pos hv]
    refine ⟨fun _ => ⟨hv, rfl⟩, fun hu => ?_, by decide, by decide⟩
    rw [hu] at hv
    rw [if_pos hv]

/-- Witness for `parse_confidence_dichotomy` at raw text `"help"`. -/
theorem parse_confidence_dichotomy_witness :
    cleanResponse (ofStr "help") = (parse_llm_response (ofStr "help")).1.value
    ∧ (parse_llm_response (ofStr "help")).2 = mkRat 95 100 :=
  (parse_confidence_dichotomy (ofStr "help")).1 (by decide)

/-! ### The Example Store (`src/services/prompt_manager.py`) -/

/-- A few-shot example as validated by the pydantic model
`FewShotExample` (`user_input` is stored stripped by the field validator;
the free-form metadata map carries no logic and is omitted). -/
structure FewShotExample where
  user_input : List Nat
  intent : IntentType
  confidence : Option ℚ
deriving DecidableEq, Repr

/-- One entry of the `examples` list of the JSON source before pydantic
validation; `none` models a missing key. -/
structure RawEntry where
  user_input : Option (List Nat)
  intent : Option (List Nat)
  confidence : Option ℚ
deriving DecidableEq, Repr

/-- Pydantic validation of one entry (`FewShotExample(**item)`):
`user_input` required, raw length 1..500, stripped non-empty (the field
validator strips it); `intent` required and coerced by exact value match
into the enum; optional `confidence` in [0, 1]. `none` = entry invalid,
skipped with a warning by the loader. -/
def parseEntry (r : RawEntry) : Option FewShotExample :=
  match r.user_input, r.intent with
  | some ui, some it =>
    if 1 ≤ ui.length ∧ ui.length ≤ 500 then
      if (strStrip ui).isEmpty then none
      else
        match allIntents.find? (fun i => decide (it = i.value)) with
        | some cat =>
          match r.confidence with
          | none => some ⟨strStrip ui, cat, none⟩
          | some c =>
            if 0 ≤ c ∧ c ≤ 1 then some ⟨strStrip ui, cat, some c⟩ else none
        | none => none
    else none
  | _, _ => none

/-- The observable states of the JSON example source file. -/
inductive SourceState
  | missing
  | notAFile
  | undecodableJson
  | invalidStructure
  | examplesFieldNotList
  | entries (items : List RawEntry)
deriving DecidableEq, Repr

/-- The failure reasons of `ExamplesLoadException` raised by
`load_examples`. -/
inductive LoadFailReason
  | fileNotFound
  | notAFile
  | jsonDecodeError
  | invalidStructure
  | examplesFieldNotList
  | noValidExamples
deriving DecidableEq, Repr

/-- The cache-free part of `PromptManager.load_examples`: existence and
file checks, JSON decoding, top-level structure checks, then per-entry
conversion where an invalid entry is skipped; the load fails when zero
valid entries remain. -/
def loadFromSource : SourceState → Except LoadFailReason (List FewShotExample)
  | .missing => .error .fileNotFound
  | .notAFile => .error .notAFile
  | .undecodableJson => .error .jsonDecodeError
  | .invalidStructure => .error .invalidStructure
  | .examplesFieldNotList => .error .examplesFieldNotList
  | .entries items =>
    let examples := items.filterMap parseEntry
    if examples.isEmpty then .error .noValidExamples else .ok examples

/-- The mutable state of a `PromptManager`: `_examples_cache`. -/
structure PMState where
  cache : Option (List FewShotExample)
deriving DecidableEq, Repr

/-- `PromptManager.load_examples`: return the cached sequence when
present; otherwise read the source and cache only on success. The third
component records whether the backing source was touched. -/
def load_examples (st : PMState) (src : SourceState) :
    Except LoadFailReason (List FewShotExample) × PMState × Bool :=
  match st.cache with
  | some xs => (.ok xs, st, false)
  | none =>
    match loadFromSource src with
    | .ok xs => (.ok xs, ⟨some xs⟩, true)
    | .error e => (.error e, st, true)

/-- `PromptManager.clear_cache`. -/
def clear_cache (_st : PMState) : PMState := ⟨none⟩

/-- `PromptManager.reload_examples`: clear the cache, then load again. -/
def reload_examples (st : PMState) (src : SourceState) :
    Except LoadFailReason (List FewShotExample) × PMState × Bool :=
  load_examples (clear_cache st) src

/-- `PromptManager.get_examples_count`. -/
def get_examples_count (st : PMState) : Nat :=
  match st.cache with
  | none => 0
  | some xs => xs.length

/-- The cache is unset or holds a non-empty list. -/
def cacheOk (st : PMState) : Prop := ∀ xs, st.cache = some xs → xs ≠ []

/-- A valid example used by witnesses: `{"user_input": "Oi", "intent": "greeting"}`. -/
def rawOi : RawEntry := ⟨some (ofStr "Oi"), some (ofStr "greeting"), none⟩

/-- The parsed form of `rawOi`. -/
def exampleOi : FewShotExample := ⟨ofStr "Oi", .greeting, none⟩

theorem loadFromSource_nonempty (src : SourceState)
    (xs : List FewShotExample) (h : loadFromSource src = .ok xs) :
    xs ≠ [] := by
  cases src <;> simp only [loadFromSource] at h <;> try cases h
  case entries items =>
    by_cases he : (items.filterMap parseEntry).isEmpty
    · rw [if_pos he] at h
      cases h
    · rw [if_neg he] at h
      injection h with h
      subst h
      simpa [List.isEmpty_iff] using he

theorem load_examples_ok_state (st : PMState) (src : SourceState)
    (h : cacheOk st) :
    (∀ xs, (load_examples st src).1 = .ok xs → xs ≠ [])
    ∧ cacheOk (load_examples st src).2.1 := by
  cases hc : st.cache with
  | some ys =>
    refine ⟨fun xs hx => ?_, ?_⟩
    · simp [load_examples, hc] at hx
      exact hx ▸ h ys hc
    · simpa [load_examples, hc] using h
  | none =>
    cases hl : loadFromSource src with
    | ok ys =>
      refine ⟨fun xs hx => ?_, fun xs hx => ?_⟩
      · simp [load_examples, hc, hl] at hx
        exact hx ▸ loadFromSource_nonempty src ys hl
      · simp [load_examples, hc, hl] at hx
        exact hx ▸ loadFromSource_nonempty src ys hl
    | error e =>
      refine ⟨fun xs hx => ?_, ?_⟩
      · simp [load_examples, hc, hl] at hx
      · simpa [load_examples, hc, hl] using h

/-! ### Claims C6, C7, C10: Example Store behaviour -/

/-- **C6.** A failed reload does not let a subsequent load silently return
a partial or empty sequence: a `load()` performed immediately after a
failed `reload()` (same source condition) fails explicitly with the same
error, and any load that does return a sequence returns a non-empty one. -/
theorem reload_failure_consistency (st : PMState) (src : SourceState)
    (e : LoadFailReason) (h : (reload_examples st src).1 = .error e) :
    (load_examples (reload_examples st src).2.1 src).1 = .error e
    ∧ ∀ xs, (load_examples (reload_examples st src).2.1 src).1 = .ok xs →
        xs ≠ [] := by
  cases hl : loadFromSource src with
  | ok xs =>
    simp [reload_examples, load_examples, clear_cache, hl] at h
  | error e2 =>
    simp only [reload_examples, load_examples, clear_cache, hl] at h ⊢
    injection h with h
    subst h
    exact ⟨rfl, fun xs hx => by cases hx⟩

/-- Witness for `reload_failure_consistency`: a manager holding a cached
example whose reload hits a missing source file. -/
theorem reload_failure_consistency_witness :
    (load_examples (reload_examples ⟨some [exampleOi]⟩ .missing).2.1
        .missing).1 = .error .fileNotFound :=
  (reload_failure_consistency ⟨some [exampleOi]⟩ .missing .fileNotFound rfl).1

/-- **C7.** Calling load twice without an intervening reload returns the
identical example sequence, leaves the state unchanged, and the second
call does not read the backing source (`false` flag). -/
theorem load_idempotent (st : PMState) (src : SourceState)
    (xs : List FewShotExample) (h : (load_examples st src).1 = .ok xs) :
    load_examples (load_examples st src).2.1 src
      = (.ok xs, (load_examples st src).2.1, false) := by
  cases hc : st.cache with
  | some ys =>
    simp only [load_examples, hc] at h ⊢
    injection h with h
    subst h
    rfl
  | none =>
    cases hl : loadFromSource src with
    | ok ys =>
      simp only [load_examples, hc, hl] at h ⊢
      injection h with h
      subst h
      rfl
    | error e =>
      simp [load_examples, hc, hl] at h

/-- Witness for `load_idempotent`: a fresh manager loading one valid
entry from the source. -/
theorem load_idempotent_witness :
    load_examples
        (load_examples ⟨none⟩ (.entries [rawOi]) ).2.1 (.entries [rawOi])
      = (.ok [exampleOi],
         (load_examples ⟨none⟩ (.entries [rawOi]) ).2.1, false) :=
  load_idempotent ⟨none⟩ (.entries [rawOi]) [exampleOi] rfl

/-- **C10.** Every sequence returned by a successful `load()` or
`reload()` is non-empty, and the example cache is always either unset or
a non-empty list: starting from any state satisfying that invariant, it
is preserved by `load`, `reload` and `clear_cache`, and a load yielding
zero valid entries raises instead of returning an empty sequence. -/
theorem cache_nonempty_invariant (st : PMState) (src : SourceState)
    (h : cacheOk st) :
    (∀ xs, (load_examples st src).1 = .ok xs → xs ≠ [])
    ∧ cacheOk (load_examples st src).2.1
    ∧ (∀ xs, (reload_examples st src).1 = .ok xs → xs ≠ [])
    ∧ cacheOk (reload_examples st src).2.1
    ∧ cacheOk (clear_cache st)
    ∧ (loadFromSource src = .error .noValidExamples ∨
        ∀ xs, loadFromSource src = .ok xs → xs ≠ []) := by
  have h0 : cacheOk (⟨none⟩ : PMState) := fun xs hx => by cases hx
  obtain ⟨a1, a2⟩ := load_examples_ok_state st src h
  obtain ⟨b1, b2⟩ := load_examples_ok_state ⟨none⟩ src h0
  exact ⟨a1, a2, b1, b2, h0, .inr (loadFromSource_nonempty src)⟩

/-- Witness for `cache_nonempty_invariant`: the sequence a fresh manager
loads from a one-entry source is non-empty. -/
theorem cache_nonempty_invariant_witness :
    ([exampleOi] : List FewShotExample) ≠ [] :=
  (cache_nonempty_invariant ⟨none⟩ (.entries [rawOi])
      (fun xs hx => by cases hx)).1 [exampleOi] rfl

/-! ### The Classification Orchestrator (`src/services/intent_service.py`) -/

/-- The `details` dict attached to a `ClassificationFailedException`
raised by `IntentService.classify`. -/
structure FailDetails where
  request_id : Option (List Nat)
  input_preview : List Nat
  processing_time_ms : ℚ
deriving DecidableEq, Repr

/-- The exceptions that can escape `IntentService.classify` (plus
`generic` for an arbitrary `Exception` raised by an injected
dependency, as caught by `classify_batch`). -/
inductive PyErr
  | validation (kind : ValidationFailKind)
  | classificationFailed (reason : List Nat) (details : FailDetails)
  | generic (msg : List Nat)
deriving DecidableEq, Repr

/-- The metadata map of a `ClassificationResult` (only the keys the
service ever writes). -/
structure ResultMeta where
  request_id : Option (List Nat)
  input_length : Option Nat
  prompt_length : Option Nat
  error : Option (List Nat)
deriving DecidableEq, Repr

/-- `ClassificationResult` of `src/domain/models.py`. The UTC timestamp
carries no logic and is omitted. -/
structure ClassificationResult where
  intent : IntentType
  confidence : ℚ
  confidence_level : ConfidenceLevel
  raw_response : List Nat
  processing_time_ms : ℚ
  model_used : List Nat
  metadata : ResultMeta
deriving DecidableEq, Repr

/-- `IntentService.classify`. The prompt build and the LLM call are
oracles (`buildPromptRes`, `llm`) whose `error` carries `str(e)` of the
underlying exception; `elapsedMs` is the measured wall-clock latency.
The second and third components record whether the prompt-build step and
the LLM call were reached. -/
def classifyT (buildPromptRes : Except (List Nat) (List Nat))
    (llm : List Nat → Except (List Nat) (List Nat))
    (modelName : List Nat) (elapsedMs : ℚ)
    (user_input : List Nat) (request_id : Option (List Nat)) :
    Except PyErr ClassificationResult × Bool × Bool :=
  match validate_input user_input with
  | some k => (.error (.validation k), false, false)
  | none =>
    match buildPromptRes with
    | .error e =>
      (.error (.classificationFailed e
        ⟨request_id, user_input.take 100, elapsedMs⟩), true, false)
    | .ok prompt =>
      match llm prompt with
      | .error e =>
        (.error (.classificationFailed e
          ⟨request_id, user_input.take 100, elapsedMs⟩), true, true)
      | .ok raw =>
        (.ok
          { intent := (parse_llm_response raw).1
            confidence := (parse_llm_response raw).2
            confidence_level :=
              calculate_confidence_level none (parse_llm_response raw).2
            raw_response := raw
            processing_time_ms := elapsedMs
            model_used := modelName
            metadata :=
              ⟨request_id, some user_input.length, some prompt.length,
               none⟩ }, true, true)

/-- `str(e)` of the exceptions modelled by `PyErr` (messages as built by
`src/core/exceptions.py`). -/
def errMessage : PyErr → List Nat
  | .validation .emptyInput => ofStr "O texto não pode estar vazio"
  | .validation .tooLong =>
      ofStr "O texto excede o limite de 1000 caracteres"
  | .validation .noAlphanumeric =>
      ofStr "O texto deve conter pelo menos um caractere alfanumérico"
  | .classificationFailed reason _ =>
      ofStr "Falha na classificação: " ++ reason
  | .generic msg => msg

/-- Decimal digits of a `Nat`, as code points (for f-string indices). -/
def natStr (n : Nat) : List Nat := ofStr (toString n)

/-- The per-item correlation id of `classify_batch`:
`f"{request_id}_item_{idx}"` when a batch id is supplied, else `None`. -/
def subRequestId (request_id : Option (List Nat)) (idx : Nat) :
    Option (List Nat) :=
  request_id.map (fun r => r ++ ofStr "_item_" ++ natStr idx)

/-- The sentinel result `classify_batch` records for a failed item. -/
def failureResult (modelName : List Nat) (sub_id : Option (List Nat))
    (e : PyErr) : ClassificationResult :=
  { intent := .unknown
    confidence := 0
    confidence_level := calculate_confidence_level none 0
    raw_response := []
    processing_time_ms := 0
    model_used := modelName
    metadata := ⟨sub_id, none, none, some (errMessage e)⟩ }

/-- The enumerated loop of `IntentService.classify_batch`, with
`classifyFn` standing for `self.classify` applied to one input and its
derived per-item request id. -/
def classifyBatchAux
    (classifyFn : List Nat → Option (List Nat) →
      Except PyErr ClassificationResult)
    (modelName : List Nat) (request_id : Option (List Nat)) :
    Nat → List (List Nat) → List ClassificationResult
  | _, [] => []
  | idx, ui :: rest =>
    (match classifyFn ui (subRequestId request_id idx) with
     | .ok r => r
     | .error e => failureResult modelName (subRequestId request_id idx) e)
      :: classifyBatchAux classifyFn modelName request_id (idx + 1) rest

/-- `IntentService.classify_batch`. -/
def classify_batch
    (classifyFn : List Nat → Option (List Nat) →
      Except PyErr ClassificationResult)
    (modelName : List Nat) (user_inputs : List (List Nat))
    (request_id : Option (List Nat)) : List ClassificationResult :=
  classifyBatchAux classifyFn modelName request_id 0 user_inputs

/-! ### Claim C4: input validation -/

theorem emptyCond_iff (ui : List Nat) :
    (ui.isEmpty || (strStrip ui).isEmpty) = true ↔ strStrip ui = [] := by
  cases ui with
  | nil => simp [strStrip]
  | cons a t => simp [List.isEmpty_iff]

set_option maxRecDepth 10000

/-- **C4.** classify raises a ValidationError before any prompt is built
or any LLM call is made if and only if the input is empty after trimming,
longer than 1000 characters, or contains no alphanumeric character; an
input of exactly 1000 alphanumeric characters is accepted and one of
1001 characters is rejected. -/
theorem validation_fast_fail
    (bp : Except (List Nat) (List Nat))
    (llm : List Nat → Except (List Nat) (List Nat))
    (mn : List Nat) (t : ℚ) (ui : List Nat) (rid : Option (List Nat)) :
    ((validate_input ui).isSome ↔
      (strStrip ui = [] ∨ 1000 < ui.length
        ∨ ∀ n ∈ ui, isAlnumCode n = false))
    ∧ (∀ k, validate_input ui = some k →
        classifyT bp llm mn t ui rid = (.error (.validation k), false, false))
    ∧ validate_input (List.replicate 1000 97) = none
    ∧ validate_input (List.replicate 1001 97) = some .tooLong := by
  refine ⟨?_, fun k hk => by simp [classifyT, hk], by decide, by decide⟩
  unfold validate_input
  split_ifs with h1 h2 h3
  · simp only [Option.isSome_some, true_iff]
    exact .inl ((emptyCond_iff ui).mp h1)
  · simp only [Option.isSome_some, true_iff]
    exact .inr (.inl h2)
  · simp only [Option.isSome_some, true_iff]
    refine .inr (.inr ?_)
    simpa [List.any_eq_false] using h3
  · simp only [Option.isSome_none, Bool.false_eq_true, false_iff]
    intro hdisj
    rcases hdisj with hc | hlen | hall
    · exact h1 ((emptyCond_iff ui).mpr hc)
    · exact h2 hlen
    · exact h3 (by simpa [List.any_eq_false] using hall)

/-- Witness for `validation_fast_fail`: a purely punctuational input is
rejected with no prompt built and no LLM call. -/
theorem validation_fast_fail_witness :
    classifyT (.ok []) (fun _ => .ok []) [] 0 (ofStr "!!!") none
      = (.error (.validation .noAlphanumeric), false, false) :=
  (validation_fast_fail (.ok []) (fun _ => .ok []) [] 0 (ofStr "!!!")
      none).2.1 .noAlphanumeric rfl

/-! ### Claim C5: error propagation policy of classify -/

/-- **C5.** During a single classify call, a validation failure
propagates to the caller unwrapped, and every other failure (prompt
build or completion) is re-raised as a ClassificationFailedError whose
details carry the correlation id, an input preview of at most 100
characters, and the elapsed time. -/
theorem classify_error_policy
    (bp : Except (List Nat) (List Nat))
    (llm : List Nat → Except (List Nat) (List Nat))
    (mn : List Nat) (t : ℚ) (ui : List Nat) (rid : Option (List Nat)) :
    (∀ k, validate_input ui = some k →
        (classifyT bp llm mn t ui rid).1 = .error (.validation k))
    ∧ (∀ e, validate_input ui = none →
        (classifyT bp llm mn t ui rid).1 = .error e →
        ∃ r, e = .classificationFailed r ⟨rid, ui.take 100, t⟩)
    ∧ (ui.take 100).length ≤ 100 := by
  refine ⟨fun k hk => by simp [classifyT, hk], fun e hv he => ?_, ?_⟩
  · cases bp with
    | error eb =>
      simp only [classifyT, hv] at he
      injection he with he
      exact ⟨eb, he.symm⟩
    | ok prompt =>
      cases hl : llm prompt with
      | error el =>
        simp only [classifyT, hv, hl] at he
        injection he with he
        exact ⟨el, he.symm⟩
      | ok raw =>
        simp [classifyT, hv, hl] at he
  · rw [List.length_take]
    exact Nat.min_le_left _ _

/-- Witness for `classify_error_policy`: a failing LLM call is wrapped
with correlation id, preview and elapsed time. -/
theorem classify_error_policy_witness :
    ∃ r, (PyErr.classificationFailed (ofStr "boom")
        ⟨none, (ofStr "hi").take 100, 0⟩)
      = .classificationFailed r ⟨none, (ofStr "hi").take 100, 0⟩ :=
  (classify_error_policy (.ok (ofStr "p"))
      (fun _ => .error (ofStr "boom")) [] 0 (ofStr "hi") none).2.1
    (.classificationFailed (ofStr "boom") ⟨none, (ofStr "hi").take 100, 0⟩)
    rfl rfl

/-! ### Claim C2: batch classification -/

theorem classifyBatchAux_length
    (f : List Nat → Option (List Nat) → Except PyErr ClassificationResult)
    (mn : List Nat) (rid : Option (List Nat)) :
    ∀ (inputs : List (List Nat)) (start : Nat),
      (classifyBatchAux f mn rid start inputs).length = inputs.length := by
  intro inputs
  induction inputs with
  | nil => intro start; rfl
  | cons a t ih =>
    intro start
    simp only [classifyBatchAux, List.length_cons, ih (start + 1)]

theorem classifyBatchAux_get?
    (f : List Nat → Option (List Nat) → Except PyErr ClassificationResult)
    (mn : List Nat) (rid : Option (List Nat)) :
    ∀ (inputs : List (List Nat)) (start i : Nat),
      (classifyBatchAux f mn rid start inputs).get? i
        = (inputs.get? i).map (fun ui =>
            match f ui (subRequestId rid (start + i)) with
            | .ok r => r
            | .error e => failureResult mn (subRequestId rid (start + i)) e) := by
  intro inputs
  induction inputs with
  | nil => intro start i; rfl
  | cons a t ih =>
    intro start i
    cases i with
    | zero => rfl
    | succ j =>
      have h := ih (start + 1) j
      simp only [classifyBatchAux, List.get?_cons_succ]
      rw [show start + (j + 1) = start + 1 + j from by omega]
      exact h

/-- Does the metadata mention the decimal index `i` in any of its string
fields? (The only string-valued fields are `request_id` and `error`.) -/
def metaMentionsIndex (m : ResultMeta) (i : Nat) : Bool :=
  (match m.request_id with
   | some s => strContainsSub s (natStr i)
   | none => false)
  || (match m.error with
      | some s => strContainsSub s (natStr i)
      | none => false)

/-- **C2, counterexample.** When no batch correlation id is supplied, the
failed item's metadata is `{request_id: None, error: msg}`: it carries
the error message but the item index appears in no metadata field,
against the claim that metadata carries the item index. -/
theorem classify_batch_counterexample :
    (classify_batch (fun _ _ => .error (.generic (ofStr "boom")))
        (ofStr "m") [ofStr "a", ofStr "b"] none).get? 1
      = some (failureResult (ofStr "m") none (.generic (ofStr "boom")))
    ∧ (failureResult (ofStr "m") none (.generic (ofStr "boom"))).metadata
        = ⟨none, none, none, some (ofStr "boom")⟩
    ∧ metaMentionsIndex
        (failureResult (ofStr "m") none (.generic (ofStr "boom"))).metadata
        1 = false := ⟨rfl, rfl, by decide⟩

/-- **C2 (amended).** classifyBatch returns one result per input, in
order, of the same length; a failure in one item yields the sentinel
result (category unknown, confidence 0.0 with derived tier, empty raw
response, zero latency) whose metadata carries the error message and the
derived per-item request id — which embeds the item index only when a
batch correlation id was supplied (otherwise the request id is None and
the index is not recorded). -/
theorem classify_batch_amended
    (f : List Nat → Option (List Nat) → Except PyErr ClassificationResult)
    (mn : List Nat) (inputs : List (List Nat)) (rid : Option (List Nat)) :
    (classify_batch f mn inputs rid).length = inputs.length
    ∧ (∀ i, (classify_batch f mn inputs rid).get? i
        = (inputs.get? i).map (fun ui =>
            match f ui (subRequestId rid i) with
            | .ok r => r
            | .error e => failureResult mn (subRequestId rid i) e))
    ∧ (∀ sid e,
        (failureResult mn sid e).intent = .unknown
        ∧ (failureResult mn sid e).confidence = 0
        ∧ (failureResult mn sid e).raw_response = []
        ∧ (failureResult mn sid e).processing_time_ms = 0
        ∧ (failureResult mn sid e).metadata.error = some (errMessage e)
        ∧ (failureResult mn sid e).metadata.request_id = sid)
    ∧ (∀ r i, subRequestId (some r) i
        = some (r ++ ofStr "_item_" ++ natStr i)) := by
  refine ⟨classifyBatchAux_length f mn rid inputs 0, fun i => ?_,
    fun sid e => ⟨rfl, rfl, rfl, rfl, rfl, rfl⟩, fun r i => rfl⟩
  simpa using classifyBatchAux_get? f mn rid inputs 0 i

/-! ### The Prompt Builder (`PromptManager.build_prompt`) -/

/-- `sep.join(parts)`. -/
def joinSep (sep : List Nat) : List (List Nat) → List Nat
  | [] => []
  | [p] => p
  | p :: q :: rest => p ++ sep ++ joinSep sep (q :: rest)

/-- `PromptManager.get_system_instruction`: the static f-string with the
comma-joined intent list interpolated. -/
def get_system_instruction : List Nat :=
  ofStr "Você é um classificador de intenções de texto em português brasileiro.\n\nSua tarefa é analisar o texto fornecido pelo usuário e classificar a intenção em UMA das seguintes categorias:\n"
  ++ joinSep (ofStr ", ") (allIntents.map IntentType.value)
  ++ ofStr "\n\n## Regras:\n1. Retorne APENAS o nome da categoria (exemplo: \"greeting\", \"question\", \"help\")\n2. NÃO inclua explicações, pontuação extra ou texto adicional\n3. A resposta deve ser uma única palavra em minúsculas\n4. Se não tiver certeza, retorne \"unknown\"\n5. Analise o contexto e o tom da mensagem para determinar a intenção correta\n\n## Descrição das Intenções:\n- greeting: Saudações, cumprimentos iniciais\n- farewell: Despedidas, encerramentos\n- question: Perguntas ou dúvidas\n- complaint: Reclamações, insatisfações\n- compliment: Elogios, agradecimentos positivos\n- request: Solicitações, pedidos de ação\n- information: Fornecimento de informações\n- help: Pedidos de ajuda ou suporte\n- cancellation: Solicitações de cancelamento\n- confirmation: Confirmações ou validações\n- unknown: Intenção não identificada"

/-- The per-example lines appended by the loop of `build_prompt`
(`enumerate(selected_examples, 1)`): four parts per example, the fourth
being the blank line. -/
def exampleParts : Nat → List FewShotExample → List (List Nat)
  | _, [] => []
  | i, ex :: rest =>
    (ofStr "Exemplo " ++ natStr i ++ ofStr ":")
      :: (ofStr "Input: " ++ ex.user_input)
      :: (ofStr "Output: " ++ ex.intent.value)
      :: []
      :: exampleParts (i + 1) rest

/-- `"\n".join(prompt_parts)` for the parts list built by `build_prompt`. -/
def renderPromptParts (user_input : List Nat)
    (sel : List FewShotExample) : List Nat :=
  joinSep [10]
    ([get_system_instruction, [], ofStr "## Exemplos de Classificação:", []]
      ++ exampleParts 1 sel
      ++ [ofStr "## Tarefa:", ofStr "Input: " ++ user_input,
          ofStr "Output:"])

/-- `num_examples = max_examples or self.max_examples`: Python `or`
treats an explicit 0 (falsy) like `None`. -/
def num_examples_of (defaultMax : Nat) : Option Nat → Nat
  | some k => if k = 0 then defaultMax else k
  | none => defaultMax

/-- `PromptBuildException`: inside `build_prompt` the only failing step
of the model is the implicit example load, whose error is wrapped. -/
inductive PromptBuildErr
  | wrapped (e : LoadFailReason)
deriving DecidableEq, Repr

/-- `PromptManager.build_prompt`: load examples when not supplied
(wrapping a load failure), truncate to the first
`max_examples or self.max_examples` in loaded order, and join the parts
with newlines. `defaultMax` is `self.max_examples`. -/
def build_prompt (st : PMState) (src : SourceState) (defaultMax : Nat)
    (user_input : List Nat) (examples : Option (List FewShotExample))
    (max_examples : Option Nat) :
    Except PromptBuildErr (List Nat) × PMState :=
  match examples with
  | some xs =>
    (.ok (renderPromptParts user_input
      (xs.take (num_examples_of defaultMax max_examples))), st)
  | none =>
    match load_examples st src with
    | (.error e, st2, _) => (.error (.wrapped e), st2)
    | (.ok xs, st2, _) =>
      (.ok (renderPromptParts user_input
        (xs.take (num_examples_of defaultMax max_examples))), st2)

/-- Modelled from the claim wording: the numbered example blocks, each
with the example's input text and category value. -/
def exampleBlocks : Nat → List FewShotExample → List Nat
  | _, [] => []
  | i, ex :: rest =>
    ofStr "Exemplo " ++ natStr i ++ ofStr ":" ++ [10]
      ++ ofStr "Input: " ++ ex.user_input ++ [10]
      ++ ofStr "Output: " ++ ex.intent.value ++ [10] ++ [10]
      ++ exampleBlocks (i + 1) rest

/-- Modelled from the claim wording: system instruction, blank line,
examples header, one numbered block per selected example, then a final
block with the literal user input and a bare `Output:` cue with nothing
after it. -/
def promptRender (user_input : List Nat)
    (sel : List FewShotExample) : List Nat :=
  get_system_instruction ++ [10] ++ [10]
    ++ ofStr "## Exemplos de Classificação:" ++ [10] ++ [10]
    ++ exampleBlocks 1 sel
    ++ ofStr "## Tarefa:" ++ [10]
    ++ ofStr "Input: " ++ user_input ++ [10]
    ++ ofStr "Output:"

theorem joinSep_cons_ne (s p : List Nat) (l : List (List Nat))
    (h : l ≠ []) : joinSep s (p :: l) = p ++ s ++ joinSep s l := by
  cases l with
  | nil => exact absurd rfl h
  | cons q rest => rfl

theorem joinSep_exampleParts (tail : List (List Nat)) (htail : tail ≠ []) :
    ∀ (sel : List FewShotExample) (i : Nat),
      joinSep [10] (exampleParts i sel ++ tail)
        = exampleBlocks i sel ++ joinSep [10] tail := by
  intro sel
  induction sel with
  | nil => intro i; simp [exampleParts, exampleBlocks]
  | cons ex rest ih =>
    intro i
    have hne : exampleParts (i + 1) rest ++ tail ≠ [] := by
      intro hh
      exact htail (List.append_eq_nil.mp hh).2
    simp only [exampleParts, List.cons_append]
    rw [joinSep_cons_ne _ _ _ (by simp), joinSep_cons_ne _ _ _ (by simp),
        joinSep_cons_ne _ _ _ (by simp), joinSep_cons_ne _ _ _ hne,
        ih (i + 1)]
    simp [exampleBlocks, List.append_assoc]

theorem renderPromptParts_eq (user_input : List Nat)
    (sel : List FewShotExample) :
    renderPromptParts user_input sel = promptRender user_input sel := by
  unfold renderPromptParts
  have htail : ([ofStr "## Tarefa:", ofStr "Input: " ++ user_input,
      ofStr "Output:"] : List (List Nat)) ≠ [] := by simp
  have hne : exampleParts 1 sel ++ [ofStr "## Tarefa:",
      ofStr "Input: " ++ user_input, ofStr "Output:"] ≠ [] := by
    intro hh
    exact htail (List.append_eq_nil.mp hh).2
  simp only [List.cons_append, List.nil_append]
  rw [joinSep_cons_ne _ _ _ (by simp), joinSep_cons_ne _ _ _ (by simp),
      joinSep_cons_ne _ _ _ (by simp), joinSep_cons_ne _ _ _ hne,
      joinSep_exampleParts _ htail sel 1]
  simp [promptRender, joinSep, List.append_assoc]

/-! ### Claim C8: prompt construction -/

/-- **C8, counterexample.** With an explicit `maxExamples` of 0 — falsy
in Python, so `max_examples or self.max_examples` picks the default —
`build_prompt` renders the example anyway, while the claim demands
exactly the first 0 examples, i.e. a prompt with none. -/
theorem promptRender_length (ui : List Nat) (sel : List FewShotExample) :
    (promptRender ui sel).length
      = (promptRender ui []).length + (exampleBlocks 1 sel).length := by
  simp [promptRender, exampleBlocks]
  omega

theorem build_prompt_counterexample :
    (build_prompt ⟨none⟩ .missing 5 (ofStr "Oi") (some [exampleOi])
        (some 0)).1
      = .ok (promptRender (ofStr "Oi") [exampleOi])
    ∧ promptRender (ofStr "Oi") [exampleOi]
        ≠ promptRender (ofStr "Oi") [] := by
  constructor
  · show Except.ok (renderPromptParts (ofStr "Oi") ([exampleOi].take 5))
      = Except.ok (promptRender (ofStr "Oi") [exampleOi])
    rw [renderPromptParts_eq]
    rfl
  · intro heq
    have hl := congrArg List.length heq
    rw [promptRender_length (ofStr "Oi") [exampleOi],
        promptRender_length (ofStr "Oi") []] at hl
    have hbe : (exampleBlocks 1 ([] : List FewShotExample)).length = 0 := rfl
    have hpos : 0 < (exampleBlocks 1 [exampleOi]).length := by decide
    omega

/-- **C8 (amended).** For every user input and example list, and any
supplied `maxExamples` other than the falsy 0 (an explicit 0 falls back
to the configured default), buildPrompt uses exactly the first
`maxExamples` examples in their loaded order (no shuffling, no relevance
ranking), renders one numbered block per example with its input text and
category value, and ends with a final block containing the literal user
input followed by an `Output:` cue with nothing after it. -/
theorem build_prompt_amended (st : PMState) (src : SourceState)
    (defaultMax : Nat) (user_input : List Nat)
    (xs : List FewShotExample) (max_examples : Option Nat)
    (h : max_examples ≠ some 0) :
    (build_prompt st src defaultMax user_input (some xs) max_examples).1
      = .ok (promptRender user_input
          (xs.take (max_examples.getD defaultMax)))
    ∧ ∃ pre,
        (build_prompt st src defaultMax user_input (some xs)
            max_examples).1
          = .ok (pre ++ (ofStr "Input: " ++ user_input
              ++ ([10] ++ ofStr "Output:"))) := by
  have hmax : num_examples_of defaultMax max_examples
      = max_examples.getD defaultMax := by
    cases max_examples with
    | none => rfl
    | some k =>
      cases k with
      | zero => exact absurd rfl h
      | succ m => rfl
  have h1 : (build_prompt st src defaultMax user_input (some xs)
      max_examples).1
      = .ok (promptRender user_input
          (xs.take (max_examples.getD defaultMax))) := by
    show Except.ok (renderPromptParts user_input
        (xs.take (num_examples_of defaultMax max_examples))) = _
    rw [hmax, renderPromptParts_eq]
  refine ⟨h1, ⟨get_system_instruction ++ [10] ++ [10]
    ++ ofStr "## Exemplos de Classificação:" ++ [10] ++ [10]
    ++ exampleBlocks 1 (xs.take (max_examples.getD defaultMax))
    ++ ofStr "## Tarefa:" ++ [10], ?_⟩⟩
  rw [h1]
  simp [promptRender, List.append_assoc]

/-- Witness for `build_prompt_amended` with no explicit maximum (default
of 5). -/
theorem build_prompt_amended_witness :
    (build_prompt ⟨none⟩ .missing 5 (ofStr "Oi") (some [exampleOi])
        none).1
      = .ok (promptRender (ofStr "Oi")
          ([exampleOi].take ((none : Option Nat).getD 5))) :=
  (build_prompt_amended ⟨none⟩ .missing 5 (ofStr "Oi") [exampleOi] none
    (fun hh => by cases hh)).1
